import Mathlib

/-!
# Formal model of the LLDPA repository (LLDP TLV codecs and LLDPDU container)

This file gives a shallow embedding of the Rust sources under `src/`:
the per-kind TLV codecs (`src/tlv/*.rs`), the `Tlv` dispatch union
(`src/tlv.rs`) and the `Lldpdu` container (`src/lldpdu.rs`).

Conventions of the embedding:
* Machine integers (`u8`, `u16`, `u32`, `usize`) are modelled as `Nat`; every
  operation that masks or truncates in Rust carries an explicit `% 2^w` or
  `&&& mask` at the same spot as in the source.
* Rust byte buffers (`Vec<u8>`, `&[u8]`) are `List Nat` whose entries are
  byte values.
* Functions that can panic in Rust (decoders, the constructor of
  `SystemCapabilitiesTLV`, `Lldpdu::append`) return `Option`; `none` models a
  panic.  Arithmetic follows the semantics of a debug build (the build used by
  `cargo test`): an integer left shift whose shift amount is at least the bit
  width of the type is a panic.
* Rust `String` is kept as Lean `String`; `str.as_bytes()` / `str.len()` are
  modelled through an explicit UTF-8 encoder `strBytes`, matching Rust's
  byte-oriented view of strings.
-/

namespace LLDPA

/-! ## UTF-8 byte view of strings (Rust `String::as_bytes` / `String::len`) -/

/-- UTF-8 encoding of a single Unicode code point, as Rust stores it inside a
`String`. -/
def utf8CharBytes (c : Nat) : List Nat :=
  if c < 0x80 then [c]
  else if c < 0x800 then
    [0xC0 ||| (c >>> 6), 0x80 ||| (c &&& 0x3F)]
  else if c < 0x10000 then
    [0xE0 ||| (c >>> 12), 0x80 ||| ((c >>> 6) &&& 0x3F), 0x80 ||| (c &&& 0x3F)]
  else
    [0xF0 ||| (c >>> 18), 0x80 ||| ((c >>> 12) &&& 0x3F),
     0x80 ||| ((c >>> 6) &&& 0x3F), 0x80 ||| (c &&& 0x3F)]

/-- The UTF-8 bytes of a string: Rust's `s.as_bytes()`.  `s.len()` in Rust is
`(strBytes s).length`. -/
def strBytes (s : String) : List Nat :=
  s.data.flatMap (fun c => utf8CharBytes c.toNat)

/-! ## `TlvType` registry (src/tlv.rs) -/

/-- The ten TLV type codes of `enum TlvType` in src/tlv.rs. -/
inductive TlvType where
  | EndOfLLDPDU
  | ChassisId
  | PortId
  | Ttl
  | PortDescription
  | SystemName
  | SystemDescription
  | SystemCapabilities
  | ManagementAddress
  | OrganizationallySpecific
  deriving DecidableEq, Repr

/-- The numeric code of a `TlvType` (the discriminant values in src/tlv.rs). -/
def TlvType.code : TlvType → Nat
  | .EndOfLLDPDU => 0
  | .ChassisId => 1
  | .PortId => 2
  | .Ttl => 3
  | .PortDescription => 4
  | .SystemName => 5
  | .SystemDescription => 6
  | .SystemCapabilities => 7
  | .ManagementAddress => 8
  | .OrganizationallySpecific => 127

/-- Model of `TlvType::try_from(u8)` from src/tlv.rs. -/
def TlvType.tryFrom (v : Nat) : Option TlvType :=
  if v = 0 then some .EndOfLLDPDU
  else if v = 1 then some .ChassisId
  else if v = 2 then some .PortId
  else if v = 3 then some .Ttl
  else if v = 4 then some .PortDescription
  else if v = 5 then some .SystemName
  else if v = 6 then some .SystemDescription
  else if v = 7 then some .SystemCapabilities
  else if v = 8 then some .ManagementAddress
  else if v = 127 then some .OrganizationallySpecific
  else none

/-! ## IP addresses (std::net::IpAddr, as used by the codecs) -/

/-- Model of `std::net::IpAddr`, reduced to its octet content.  `V4` carries 4 octets,
`V6` carries 16 octets; the octet lists come from `Ipv4Addr::octets` /
`Ipv6Addr::octets`. -/
inductive IpAddr where
  | V4 (octets : List Nat)
  | V6 (octets : List Nat)
  deriving DecidableEq, Repr

/-- Model of `IpAddr::is_ipv4`. -/
def IpAddr.is_ipv4 : IpAddr → Bool
  | .V4 _ => true
  | .V6 _ => false

/-- Model of `IpAddr::is_ipv6`. -/
def IpAddr.is_ipv6 : IpAddr → Bool
  | .V4 _ => false
  | .V6 _ => true

/-- The octet list of an address. -/
def IpAddr.octets : IpAddr → List Nat
  | .V4 o => o
  | .V6 o => o

/-! ## ChassisIdTLV (src/tlv/chassisid_tlv.rs) -/

/-- Model of `enum ChassisIdSubType`. -/
inductive ChassisIdSubType where
  | ChassisComponent
  | InterfaceAlias
  | PortComponent
  | MacAddress
  | NetworkAddress
  | InterfaceName
  | Local
  deriving DecidableEq, Repr

/-- The discriminant of a `ChassisIdSubType` (values 1..7). -/
def ChassisIdSubType.code : ChassisIdSubType → Nat
  | .ChassisComponent => 1
  | .InterfaceAlias => 2
  | .PortComponent => 3
  | .MacAddress => 4
  | .NetworkAddress => 5
  | .InterfaceName => 6
  | .Local => 7

/-- Model of `ChassisIdSubType::try_from(u8)`. -/
def ChassisIdSubType.tryFrom (v : Nat) : Option ChassisIdSubType :=
  if v = 1 then some .ChassisComponent
  else if v = 2 then some .InterfaceAlias
  else if v = 3 then some .PortComponent
  else if v = 4 then some .MacAddress
  else if v = 5 then some .NetworkAddress
  else if v = 6 then some .InterfaceName
  else if v = 7 then some .Local
  else none

/-- Model of `enum ChassisIdValue`. -/
inductive ChassisIdValue where
  | Mac (mac : List Nat)
  | IpAddress (addr : IpAddr)
  | Other (s : String)
  deriving DecidableEq, Repr

/-- Model of `struct ChassisIdTLV`. -/
structure ChassisIdTLV where
  tlv_type : TlvType
  subtype : ChassisIdSubType
  value : ChassisIdValue
  deriving DecidableEq, Repr

/-- Model of `ChassisIdTLV::new`. -/
def ChassisIdTLV.new (subtype : ChassisIdSubType) (id : ChassisIdValue) : ChassisIdTLV :=
  { tlv_type := .ChassisId, subtype := subtype, value := id }

/-- Model of `ChassisIdTLV::len`: one subtype byte plus the value bytes (IP values also
count their one-byte family tag). -/
def ChassisIdTLV.len (t : ChassisIdTLV) : Nat :=
  1 + match t.value with
      | .Mac _ => 6
      | .Other s => (strBytes s).length
      | .IpAddress (.V4 _) => 4 + 1
      | .IpAddress (.V6 _) => 16 + 1

/-- Model of `ChassisIdTLV::bytes`.  Note the source tests the 9th length bit with
`length_field & (1 << 9) == 1`, which is never true, and truncates the length
to its low 8 bits. -/
def ChassisIdTLV.bytes (t : ChassisIdTLV) : List Nat :=
  let type_field := (t.tlv_type.code % 256) <<< 1 % 256
  let length_field := t.len
  let type_field := if length_field &&& (1 <<< 9) = 1 then type_field ||| 1 else type_field
  let length_byte := length_field % 256
  let value_field := match t.value with
    | .Mac addr => addr
    | .Other s => strBytes s
    | .IpAddress (.V4 a) => a
    | .IpAddress (.V6 a) => a
  let famtag : List Nat := match t.value with
    | .IpAddress (.V4 _) => [1]
    | .IpAddress (.V6 _) => [2]
    | _ => []
  [type_field, length_byte, t.subtype.code] ++ famtag ++ value_field

/-! ## PortIdTLV (src/tlv/portid_tlv.rs) -/

/-- Model of `enum PortIdSubtype`. -/
inductive PortIdSubtype where
  | InterfaceAlias
  | PortComponent
  | MacAddress
  | NetworkAddress
  | InterfaceName
  | CircuitId
  | Local
  deriving DecidableEq, Repr

/-- The discriminant of a `PortIdSubtype` (values 1..7). -/
def PortIdSubtype.code : PortIdSubtype → Nat
  | .InterfaceAlias => 1
  | .PortComponent => 2
  | .MacAddress => 3
  | .NetworkAddress => 4
  | .InterfaceName => 5
  | .CircuitId => 6
  | .Local => 7

/-- Model of `PortIdSubtype::try_from(u8)`. -/
def PortIdSubtype.tryFrom (v : Nat) : Option PortIdSubtype :=
  if v = 1 then some .InterfaceAlias
  else if v = 2 then some .PortComponent
  else if v = 3 then some .MacAddress
  else if v = 4 then some .NetworkAddress
  else if v = 5 then some .InterfaceName
  else if v = 6 then some .CircuitId
  else if v = 7 then some .Local
  else none

/-- Model of `enum PortIdValue`. -/
inductive PortIdValue where
  | Mac (mac : List Nat)
  | IpAddress (addr : IpAddr)
  | Other (s : String)
  deriving DecidableEq, Repr

/-- Model of `struct PortIdTLV`. -/
structure PortIdTLV where
  tlv_type : TlvType
  subtype : PortIdSubtype
  value : PortIdValue
  deriving DecidableEq, Repr

/-- Model of `PortIdTLV::new`. -/
def PortIdTLV.new (subtype : PortIdSubtype) (id : PortIdValue) : PortIdTLV :=
  { tlv_type := .PortId, subtype := subtype, value := id }

/-- Model of `PortIdTLV::len`. -/
def PortIdTLV.len (t : PortIdTLV) : Nat :=
  1 + match t.value with
      | .Mac _ => 6
      | .IpAddress (.V4 _) => 5
      | .IpAddress (.V6 _) => 17
      | .Other s => (strBytes s).length

/-- Model of `PortIdTLV::bytes`.  Unlike the ChassisId encoder, this one tests the
9th length bit with `!= 0`. -/
def PortIdTLV.bytes (t : PortIdTLV) : List Nat :=
  let type_rep := (t.tlv_type.code % 256) <<< 1 % 256
  let type_rep := if t.len &&& 0b100000000 ≠ 0 then type_rep ||| 1 else type_rep
  let len_rep := t.len &&& 0xFF
  let value_rep := match t.value with
    | .Mac mac => mac
    | .IpAddress a => a.octets
    | .Other s => strBytes s
  let value_rep := match t.value with
    | .IpAddress (.V4 _) => 1 :: value_rep
    | .IpAddress (.V6 _) => 2 :: value_rep
    | _ => value_rep
  [type_rep, len_rep, t.subtype.code] ++ value_rep

/-! ## TtlTLV (src/tlv/ttl_tlv.rs) -/

/-- Model of `struct TtlTLV`. -/
structure TtlTLV where
  tlv_type : TlvType
  value : Nat
  deriving DecidableEq, Repr

/-- Model of `TtlTLV::new`. -/
def TtlTLV.new (ttl : Nat) : TtlTLV :=
  { tlv_type := .Ttl, value := ttl % 65536 }

/-- Model of `TtlTLV::len`. -/
def TtlTLV.len (_ : TtlTLV) : Nat := 2

/-- Model of `TtlTLV::bytes`.  The source emits `value & 0xFF` (the LOW byte) at index 2
and `(value & 0xFF00) >> 8` (the high byte) at index 3. -/
def TtlTLV.bytes (t : TtlTLV) : List Nat :=
  let type_rep := (t.tlv_type.code % 256) <<< 1 % 256
  let type_rep := if t.len &&& 0b100000000 ≠ 0 then type_rep ||| 1 else type_rep
  let len_rep := t.len &&& 0xFF
  let byte1 := t.value &&& 0xFF
  let byte2 := (t.value &&& 0xFF00) >>> 8
  [type_rep, len_rep, byte1, byte2]

/-! ## EndOfLLDPDUTLV (src/tlv/eolldpdu_tlv.rs) -/

/-- Model of `struct EndOfLLDPDUTLV`. -/
structure EndOfLLDPDUTLV where
  tlv_type : TlvType
  deriving DecidableEq, Repr

/-- Model of `EndOfLLDPDUTLV::new`. -/
def EndOfLLDPDUTLV.new : EndOfLLDPDUTLV := { tlv_type := .EndOfLLDPDU }

/-- Model of `EndOfLLDPDUTLV::len`. -/
def EndOfLLDPDUTLV.len (_ : EndOfLLDPDUTLV) : Nat := 0

/-- Model of `EndOfLLDPDUTLV::bytes`. -/
def EndOfLLDPDUTLV.bytes (_ : EndOfLLDPDUTLV) : List Nat := [0, 0]

/-! ## PortDescriptionTLV / SystemNameTLV / SystemDescriptionTLV
(src/tlv/portdescription_tlv.rs, systemname_tlv.rs, systemdescription_tlv.rs)

All three are a single string value with identical encoders, differing only in
the type code. -/

/-- Model of `struct PortDescriptionTLV`. -/
structure PortDescriptionTLV where
  tlv_type : TlvType
  value : String
  deriving DecidableEq, Repr

/-- Model of `PortDescriptionTLV::new`. -/
def PortDescriptionTLV.new (value : String) : PortDescriptionTLV :=
  { tlv_type := .PortDescription, value := value }

/-- Model of `PortDescriptionTLV::len`. -/
def PortDescriptionTLV.len (t : PortDescriptionTLV) : Nat := (strBytes t.value).length

/-- Model of `PortDescriptionTLV::bytes` (the 9th-bit test `& 0x100 == 1` is never
true, as in the source). -/
def PortDescriptionTLV.bytes (t : PortDescriptionTLV) : List Nat :=
  let type_rep := (t.tlv_type.code % 256) <<< 1 % 256
  let type_rep := if t.len &&& 0b100000000 = 1 then type_rep ||| 1 else type_rep
  [type_rep, t.len &&& 0xFF] ++ strBytes t.value

/-- Model of `struct SystemNameTLV`. -/
structure SystemNameTLV where
  tlv_type : TlvType
  value : String
  deriving DecidableEq, Repr

/-- Model of `SystemNameTLV::new`. -/
def SystemNameTLV.new (name : String) : SystemNameTLV :=
  { tlv_type := .SystemName, value := name }

/-- Model of `SystemNameTLV::len`. -/
def SystemNameTLV.len (t : SystemNameTLV) : Nat := (strBytes t.value).length

/-- Model of `SystemNameTLV::bytes`. -/
def SystemNameTLV.bytes (t : SystemNameTLV) : List Nat :=
  let type_rep := (t.tlv_type.code % 256) <<< 1 % 256
  let type_rep := if t.len &&& 0b100000000 = 1 then type_rep ||| 1 else type_rep
  [type_rep, t.len &&& 0xFF] ++ strBytes t.value

/-- Model of `struct SystemDescriptionTLV`. -/
structure SystemDescriptionTLV where
  tlv_type : TlvType
  value : String
  deriving DecidableEq, Repr

/-- Model of `SystemDescriptionTLV::new`. -/
def SystemDescriptionTLV.new (description : String) : SystemDescriptionTLV :=
  { tlv_type := .SystemDescription, value := description }

/-- Model of `SystemDescriptionTLV::len`. -/
def SystemDescriptionTLV.len (t : SystemDescriptionTLV) : Nat := (strBytes t.value).length

/-- Model of `SystemDescriptionTLV::bytes`. -/
def SystemDescriptionTLV.bytes (t : SystemDescriptionTLV) : List Nat :=
  let type_rep := (t.tlv_type.code % 256) <<< 1 % 256
  let type_rep := if t.len &&& 0b100000000 = 1 then type_rep ||| 1 else type_rep
  [type_rep, t.len &&& 0xFF] ++ strBytes t.value

/-! ## SystemCapabilitiesTLV (src/tlv/systemcapabilities_tlv.rs) -/

/-- Model of `struct SystemCapabilitiesTLV`. -/
structure SystemCapabilitiesTLV where
  tlv_type : TlvType
  value : Nat
  deriving DecidableEq, Repr

/-- Left shift on a `u16` with the semantics of a Rust debug build: a shift
amount of 16 or more is an arithmetic overflow and panics (`none`). -/
def shlU16 (x n : Nat) : Option Nat :=
  if n < 16 then some ((x <<< n) % 65536) else none

/-- Model of `SystemCapabilitiesTLV::new`.  The source computes
`((supported << 16) | enabled) as u32` where `supported` and `enabled` are
`u16`: the shift amount 16 equals the bit width, so the whole expression is
`u16` arithmetic whose shift overflows.  No subset check is performed. -/
def SystemCapabilitiesTLV.new (supported enabled : Nat) : Option SystemCapabilitiesTLV :=
  (shlU16 (supported % 65536) 16).map fun hi =>
    { tlv_type := .SystemCapabilities, value := (hi ||| (enabled % 65536)) % 65536 }

/-- Model of `SystemCapabilitiesTLV::len`. -/
def SystemCapabilitiesTLV.len (_ : SystemCapabilitiesTLV) : Nat := 4

/-- Model of `SystemCapabilitiesTLV::bytes`: the stored 32-bit `value` big-endian. -/
def SystemCapabilitiesTLV.bytes (t : SystemCapabilitiesTLV) : List Nat :=
  let type_rep := (t.tlv_type.code % 256) <<< 1 % 256
  let type_rep := if t.len &&& 0b100000000 ≠ 0 then type_rep ||| 1 else type_rep
  let len_rep := t.len &&& 0xFF
  [type_rep, len_rep,
   (t.value &&& 0xFF000000) >>> 24, (t.value &&& 0xFF0000) >>> 16,
   (t.value &&& 0xFF00) >>> 8, t.value &&& 0xFF]

/-! ## ManagementAddressTLV (src/tlv/managementaddress_tlv.rs) -/

/-- Model of `enum IFNumberingSubtype`. -/
inductive IFNumberingSubtype where
  | Unknown
  | IfIndex
  | SystemPort
  deriving DecidableEq, Repr

/-- The discriminant of an `IFNumberingSubtype` (1..3). -/
def IFNumberingSubtype.code : IFNumberingSubtype → Nat
  | .Unknown => 1
  | .IfIndex => 2
  | .SystemPort => 3

/-- Model of `IFNumberingSubtype::try_from(u8)`. -/
def IFNumberingSubtype.tryFrom (v : Nat) : Option IFNumberingSubtype :=
  if v = 1 then some .Unknown
  else if v = 2 then some .IfIndex
  else if v = 3 then some .SystemPort
  else none

/-- Model of `struct ManagementAddressTLV`. -/
structure ManagementAddressTLV where
  tlv_type : TlvType
  interface_number : Nat
  subtype : IFNumberingSubtype
  value : IpAddr
  oid : List Nat
  deriving DecidableEq, Repr

/-- Model of `ManagementAddressTLV::new`. -/
def ManagementAddressTLV.new (address : IpAddr) (interface_number : Nat)
    (ifsubtype : IFNumberingSubtype) (oid : List Nat) : ManagementAddressTLV :=
  { tlv_type := .ManagementAddress, interface_number := interface_number % 4294967296,
    subtype := ifsubtype, value := address, oid := oid }

/-- Model of `ManagementAddressTLV::len`: 8 fixed bytes (address string length byte,
address family byte, interface numbering subtype byte, 4 interface number
bytes, OID length byte) plus the address octets plus the OID. -/
def ManagementAddressTLV.len (t : ManagementAddressTLV) : Nat :=
  8 + (if t.value.is_ipv4 then 4 else 16) + t.oid.length

/-- Model of `ManagementAddressTLV::bytes`.  Transcribed exactly from the source: after
the header it emits the address string length (5 or 17), then the constant 1
as the address family, then a SINGLE byte holding 4 or 16 (the address length
— not the address octets), then the interface numbering subtype, the interface
number big-endian, the constant 1 as the OID length, and the OID bytes. -/
def ManagementAddressTLV.bytes (t : ManagementAddressTLV) : List Nat :=
  let type_rep := (t.tlv_type.code % 256) <<< 1 % 256
  let type_rep := if t.len &&& 0b100000000 ≠ 0 then type_rep ||| 1 else type_rep
  let len_rep := t.len &&& 0xFF
  let mng_add_str_len_rep := if t.value.is_ipv4 then 4 + 1 else 16 + 1
  let mng_add_sub_rep := 1
  let ip_addr := if t.value.is_ipv4 then 4 else 16
  let if_num_sub_rep := t.subtype.code
  let byte1 := (t.interface_number &&& 0xFF000000) >>> 24
  let byte2 := (t.interface_number &&& 0xFF0000) >>> 16
  let byte3 := (t.interface_number &&& 0xFF00) >>> 8
  let byte4 := t.interface_number &&& 0xFF
  let oid_str_len_rep := 1
  [type_rep, len_rep, mng_add_str_len_rep, mng_add_sub_rep, ip_addr,
   if_num_sub_rep, byte1, byte2, byte3, byte4, oid_str_len_rep] ++ t.oid

/-! ## OrganizationallySpecificTLV (src/tlv/organizationallyspecific_tlv.rs) -/

/-- Model of `struct OrganizationallySpecificTLV`. -/
structure OrganizationallySpecificTLV where
  tlv_type : TlvType
  oui : List Nat
  subtype : Nat
  value : List Nat
  deriving DecidableEq, Repr

/-- Model of `OrganizationallySpecificTLV::new`. -/
def OrganizationallySpecificTLV.new (oui : List Nat) (subtype : Nat)
    (value : List Nat) : OrganizationallySpecificTLV :=
  { tlv_type := .OrganizationallySpecific, oui := oui, subtype := subtype % 256,
    value := value }

/-- Model of `OrganizationallySpecificTLV::len`. -/
def OrganizationallySpecificTLV.len (t : OrganizationallySpecificTLV) : Nat :=
  4 + t.value.length

/-- Model of `OrganizationallySpecificTLV::bytes`. -/
def OrganizationallySpecificTLV.bytes (t : OrganizationallySpecificTLV) : List Nat :=
  let type_rep := (t.tlv_type.code % 256) <<< 1 % 256
  let type_rep := if t.len &&& 0b100000000 ≠ 0 then type_rep ||| 1 else type_rep
  let len_rep := t.len &&& 0xFF
  [type_rep, len_rep] ++ t.oui ++ [t.subtype] ++ t.value

/-! ## UTF-8 validation (Rust `String::from_utf8`) -/

/-- Check for a UTF-8 continuation byte. -/
def isCont (b : Nat) : Bool := 0x80 ≤ b && b ≤ 0xBF

/-- Decode a UTF-8 byte list into code points, rejecting malformed, overlong
and surrogate encodings exactly as `String::from_utf8` does. -/
def utf8DecodePoints : List Nat → Option (List Nat)
  | [] => some []
  | b0 :: rest =>
    if b0 < 0x80 then
      (utf8DecodePoints rest).map (b0 :: ·)
    else if 0xC2 ≤ b0 && b0 ≤ 0xDF then
      match rest with
      | b1 :: rest2 =>
        if isCont b1 then
          (utf8DecodePoints rest2).map (((b0 &&& 0x1F) <<< 6 ||| (b1 &&& 0x3F)) :: ·)
        else none
      | _ => none
    else if 0xE0 ≤ b0 && b0 ≤ 0xEF then
      match rest with
      | b1 :: b2 :: rest3 =>
        let lo1 := if b0 = 0xE0 then 0xA0 else 0x80
        let hi1 := if b0 = 0xED then 0x9F else 0xBF
        if (lo1 ≤ b1 && b1 ≤ hi1) && isCont b2 then
          (utf8DecodePoints rest3).map
            (((b0 &&& 0x0F) <<< 12 ||| (b1 &&& 0x3F) <<< 6 ||| (b2 &&& 0x3F)) :: ·)
        else none
      | _ => none
    else if 0xF0 ≤ b0 && b0 ≤ 0xF4 then
      match rest with
      | b1 :: b2 :: b3 :: rest4 =>
        let lo1 := if b0 = 0xF0 then 0x90 else 0x80
        let hi1 := if b0 = 0xF4 then 0x8F else 0xBF
        if (lo1 ≤ b1 && b1 ≤ hi1) && isCont b2 && isCont b3 then
          (utf8DecodePoints rest4).map
            (((b0 &&& 0x07) <<< 18 ||| (b1 &&& 0x3F) <<< 12 |||
              (b2 &&& 0x3F) <<< 6 ||| (b3 &&& 0x3F)) :: ·)
        else none
      | _ => none
    else none

/-- Model of Rust `String::from_utf8`: `none` is the `Err` case. -/
def stringFromUtf8 (bs : List Nat) : Option String :=
  (utf8DecodePoints bs).map (fun ps => String.mk (ps.map Char.ofNat))

/-! ## Decoders (`new_from_bytes`)

The claims exercise the TtlTLV and ChassisIdTLV decoders, so those two are
embedded in full.  `none` models a panic (failed assertion, bad index, or an
explicit `panic!`). -/

/-- Model of `TtlTLV::new_from_bytes`.  The source computes the type code and the
9-bit length (`+ 256` weighting) but never compares the type code with 3 and
never checks the length against the buffer; it only reads bytes 2 and 3
big-endian as the TTL value. -/
def TtlTLV.new_from_bytes (bytes : List Nat) : Option TtlTLV := do
  let b0 ← bytes.get? 0
  let _ ← bytes.get? 1
  let _type_value := (b0 &&& 0b11111110) >>> 1
  let _last_bit := b0 &&& 0b00000001
  let b2 ← bytes.get? 2
  let b3 ← bytes.get? 3
  pure (TtlTLV.new ((b2 <<< 8) ||| b3))

/-- Model of `ChassisIdTLV::new_from_bytes`.  The 9th length bit is weighted
`1 << 9 = 512` in the source (not 256), and the declared length must equal
the number of bytes following the header. -/
def ChassisIdTLV.new_from_bytes (bytes : List Nat) : Option ChassisIdTLV := do
  let b0 ← bytes.get? 0
  let b1 ← bytes.get? 1
  let type_field := (b0 &&& 0b11111110) >>> 1
  if type_field ≠ TlvType.ChassisId.code then none
  else
  let length := b1 + (if b0 &&& 1 = 1 then 1 <<< 9 else 0)
  if length ≠ (bytes.drop 2).length then none
  else do
  let sb ← bytes.get? 2
  let subtype ← ChassisIdSubType.tryFrom sb
  let value ← match subtype with
    | .MacAddress =>
      if (bytes.drop 3).length = 6 then some (ChassisIdValue.Mac (bytes.drop 3)) else none
    | .NetworkAddress => do
      let fb ← bytes.get? 3
      if fb = 1 then
        if (bytes.drop 4).length = 4 then
          some (ChassisIdValue.IpAddress (.V4 ((bytes.drop 4).take 4)))
        else none
      else if fb = 2 then
        if (bytes.drop 4).length = 16 then
          some (ChassisIdValue.IpAddress (.V6 ((bytes.drop 4).take 16)))
        else none
      else none
    | _ => (stringFromUtf8 (bytes.drop 3)).map ChassisIdValue.Other
  pure { tlv_type := .ChassisId, subtype := subtype, value := value }

/-! ## Rendering (the `Display` impls) -/

/-- Hexadecimal digits, upper case. -/
def hexDigitU (n : Nat) : Char :=
  if n < 10 then Char.ofNat (48 + n) else Char.ofNat (55 + n)

/-- Format a byte the way Rust's `format!("{:X}", b)` does: upper-case hex
with no zero padding. -/
def hexU (n : Nat) : String :=
  if n < 16 then String.mk [hexDigitU n]
  else String.mk [hexDigitU ((n / 16) % 16), hexDigitU (n % 16)]

/-- Join strings with a separator (the manual loops in the `Display` impls). -/
def joinSep (sep : String) : List String → String
  | [] => ""
  | [x] => x
  | x :: xs => x ++ sep ++ joinSep sep xs

/-- Hexadecimal digits, lower case (Rust's segment formatting for IPv6). -/
def hexDigitL (n : Nat) : Char :=
  if n < 10 then Char.ofNat (48 + n) else Char.ofNat (87 + n)

/-- Format a number in lower-case hex with no padding (IPv6 group). -/
def hexL (n : Nat) : String :=
  if _h : n < 16 then String.mk [hexDigitL n]
  else hexL (n / 16) ++ String.mk [hexDigitL (n % 16)]

/-- Textual form of an IPv4 octet list: `a.b.c.d`. -/
def ipv4String (o : List Nat) : String :=
  joinSep "." (o.map (fun b => Nat.repr b))

/-- Group 16 IPv6 octets into eight 16-bit segments. -/
def ipv6Segments : List Nat → List Nat
  | a :: b :: rest => (a * 256 + b) :: ipv6Segments rest
  | _ => []

/-- Length of the longest run of zeros starting at the head. -/
def leadZeroRun : List Nat → Nat
  | 0 :: rest => 1 + leadZeroRun rest
  | _ => 0

/-- Start index of the leftmost longest run of zero segments. -/
def bestZeroStart (segs : List Nat) : Nat × Nat :=
  let runs := (List.range segs.length).map (fun i => (i, leadZeroRun (segs.drop i)))
  runs.foldl (fun best cur => if cur.2 > best.2 then cur else best) (0, 0)

/-- Textual form of an IPv6 address per Rust's `Ipv6Addr` `Display`:
the zero run of maximal length (at least two groups) is compressed to `::`,
groups are lower-case hex without padding, and the IPv4-mapped form uses the
embedded dotted quad. -/
def ipv6String (o : List Nat) : String :=
  let segs := ipv6Segments o
  if segs = [0, 0, 0, 0, 0, 0, 0, 0] then "::"
  else if (o.take 10 = [0, 0, 0, 0, 0, 0, 0, 0, 0, 0]) &&
          (o.drop 10).take 2 = [0xFF, 0xFF] then
    "::ffff:" ++ ipv4String (o.drop 12)
  else
    let best := bestZeroStart segs
    if best.2 ≥ 2 then
      joinSep ":" ((segs.take best.1).map hexL) ++ "::" ++
        joinSep ":" ((segs.drop (best.1 + best.2)).map hexL)
    else
      joinSep ":" (segs.map hexL)

/-- Textual form of an `IpAddr` (Rust `addr.to_string()`). -/
def IpAddr.render : IpAddr → String
  | .V4 o => ipv4String o
  | .V6 o => ipv6String o

/-- Model of the `Display` impl of `ChassisIdTLV`: MAC values render as
colon-joined `{:X}` bytes, strings verbatim, IPs in textual form. -/
def ChassisIdTLV.render (t : ChassisIdTLV) : String :=
  let value := match t.value with
    | .Mac mac => joinSep ":" (mac.map hexU)
    | .Other s => s
    | .IpAddress a => a.render
  "ChassisIdTLV(" ++ Nat.repr t.subtype.code ++ ", \"" ++ value ++ "\")"

/-- Model of the `Display` impl of `PortIdTLV`: the body is `todo!()`, which
panics unconditionally; `none` models that panic. -/
def PortIdTLV.render (_ : PortIdTLV) : Option String := none

/-- Model of the `Display` impl of `TtlTLV`. -/
def TtlTLV.render (t : TtlTLV) : String :=
  "TtlTLV(" ++ Nat.repr t.value ++ ")"

/-- Model of the `Display` impl of `EndOfLLDPDUTLV`. -/
def EndOfLLDPDUTLV.render (_ : EndOfLLDPDUTLV) : String := "EndOfLLDPDUTLV"

/-- Model of the `Display` impl of `PortDescriptionTLV`. -/
def PortDescriptionTLV.render (t : PortDescriptionTLV) : String :=
  "PortDescriptionTLV(\"" ++ t.value ++ "\")"

/-- Model of the `Display` impl of `SystemNameTLV`. -/
def SystemNameTLV.render (t : SystemNameTLV) : String :=
  "SystemNameTLV(\"" ++ t.value ++ "\")"

/-- Model of the `Display` impl of `SystemDescriptionTLV`. -/
def SystemDescriptionTLV.render (t : SystemDescriptionTLV) : String :=
  "SystemDescriptionTLV(\"" ++ t.value ++ "\")"

/-- Model of the `Display` impl of `SystemCapabilitiesTLV`. -/
def SystemCapabilitiesTLV.render (t : SystemCapabilitiesTLV) : String :=
  "SystemCapabilitiesTLV(" ++ Nat.repr ((t.value &&& 0xFFFF0000) >>> 16) ++ ", " ++
    Nat.repr (t.value &&& 0xFFFF) ++ ")"

/-- Model of the `Display` impl of `ManagementAddressTLV`: the body is
`todo!()`, a panic. -/
def ManagementAddressTLV.render (_ : ManagementAddressTLV) : Option String := none

/-- Model of the `Display` impl of `OrganizationallySpecificTLV`: the body is
`todo!()`, a panic. -/
def OrganizationallySpecificTLV.render (_ : OrganizationallySpecificTLV) : Option String := none

/-! ## The `Tlv` union and its dispatch (src/tlv.rs) -/

/-- Model of `enum Tlv`: the closed union over the nine concrete TLV kinds. -/
inductive Tlv where
  | ChassisId (tlv : ChassisIdTLV)
  | EndOfLldpdu (tlv : EndOfLLDPDUTLV)
  | ManagementAddress (tlv : ManagementAddressTLV)
  | OrganizationallySpecific (tlv : OrganizationallySpecificTLV)
  | PortId (tlv : PortIdTLV)
  | PortDescription (tlv : PortDescriptionTLV)
  | SystemDescription (tlv : SystemDescriptionTLV)
  | SystemName (tlv : SystemNameTLV)
  | SystemCapabilities (tlv : SystemCapabilitiesTLV)
  | Ttl (tlv : TtlTLV)
  deriving DecidableEq, Repr

/-- Model of `Tlv::get_type`: each arm returns the payload's stored `tlv_type`
field. -/
def Tlv.get_type : Tlv → TlvType
  | .ChassisId t => t.tlv_type
  | .EndOfLldpdu t => t.tlv_type
  | .ManagementAddress t => t.tlv_type
  | .OrganizationallySpecific t => t.tlv_type
  | .PortId t => t.tlv_type
  | .PortDescription t => t.tlv_type
  | .SystemDescription t => t.tlv_type
  | .SystemName t => t.tlv_type
  | .SystemCapabilities t => t.tlv_type
  | .Ttl t => t.tlv_type

/-- Model of `Tlv::bytes`: dispatch to the payload's encoder. -/
def Tlv.bytes : Tlv → List Nat
  | .ChassisId t => t.bytes
  | .EndOfLldpdu t => t.bytes
  | .ManagementAddress t => t.bytes
  | .OrganizationallySpecific t => t.bytes
  | .PortId t => t.bytes
  | .PortDescription t => t.bytes
  | .SystemDescription t => t.bytes
  | .SystemName t => t.bytes
  | .SystemCapabilities t => t.bytes
  | .Ttl t => t.bytes

/-- The value length (`len()`) of the active payload. -/
def Tlv.len : Tlv → Nat
  | .ChassisId t => t.len
  | .EndOfLldpdu t => t.len
  | .ManagementAddress t => t.len
  | .OrganizationallySpecific t => t.len
  | .PortId t => t.len
  | .PortDescription t => t.len
  | .SystemDescription t => t.len
  | .SystemName t => t.len
  | .SystemCapabilities t => t.len
  | .Ttl t => t.len

/-- Model of the `Display` impl of `Tlv`: dispatch to the payload's `Display`.
A `none` is a panic in the payload's formatter. -/
def Tlv.render : Tlv → Option String
  | .ChassisId t => some t.render
  | .EndOfLldpdu t => some t.render
  | .ManagementAddress t => t.render
  | .OrganizationallySpecific t => t.render
  | .PortId t => t.render
  | .PortDescription t => some t.render
  | .SystemDescription t => some t.render
  | .SystemName t => some t.render
  | .SystemCapabilities t => some t.render
  | .Ttl t => some t.render

/-! ## The `Lldpdu` container (src/lldpdu.rs) -/

/-- Model of `struct Lldpdu`. -/
structure Lldpdu where
  has_end : Bool
  tlvs : List Tlv
  size : Nat
  deriving DecidableEq, Repr

/-- The starting state every `Lldpdu` is built from (`Lldpdu::new(vec![])` /
the initial value inside `from_bytes`). -/
def Lldpdu.empty : Lldpdu := { has_end := false, tlvs := [], size := 0 }

/-- Model of `Lldpdu::len`. -/
def Lldpdu.length (l : Lldpdu) : Nat := l.tlvs.length

/-- Model of `Lldpdu::append`.  `none` models a panic; the checks run in
source order: total size, terminator present, the three position checks, the
duplicate-mandatory check, and the End-needs-three-TLVs check. -/
def Lldpdu.append (l : Lldpdu) (tlv : Tlv) : Option Lldpdu :=
  let tlv_size := tlv.bytes.length
  if l.size + tlv_size > 1500 then none
  else if l.has_end then none
  else
    let type_field := tlv.get_type
    if l.tlvs.length = 0 ∧ type_field ≠ .ChassisId then none
    else if l.tlvs.length = 1 ∧ type_field ≠ .PortId then none
    else if l.tlvs.length = 2 ∧ type_field ≠ .Ttl then none
    else if 3 ≤ l.tlvs.length ∧
        (type_field = .ChassisId ∨ type_field = .PortId ∨ type_field = .Ttl) then none
    else if type_field = .EndOfLLDPDU ∧ l.tlvs.length < 3 then none
    else some
      { has_end := l.has_end || (type_field = .EndOfLLDPDU : Bool),
        tlvs := l.tlvs ++ [tlv],
        size := l.size + tlv_size }

/-- Model of `Lldpdu::new`: start empty and append each initial TLV; a panic
anywhere aborts the construction. -/
def Lldpdu.new (init_tlvs : List Tlv) : Option Lldpdu :=
  init_tlvs.foldlM Lldpdu.append Lldpdu.empty

/-- Model of `Lldpdu::bytes`: concatenation of the elements' encodings. -/
def Lldpdu.bytes (l : Lldpdu) : List Nat :=
  l.tlvs.flatMap Tlv.bytes

/-- Model of `Lldpdu::complete`. -/
def Lldpdu.complete (l : Lldpdu) : Bool := l.has_end

/-- Model of the `Display` impl of `Lldpdu`: "LLDPDU(" then the comma-joined
per-TLV renders then ")"; a panic in any per-TLV render propagates. -/
def Lldpdu.render (l : Lldpdu) : Option String :=
  (l.tlvs.mapM Tlv.render).map (fun rs => "LLDPDU(" ++ joinSep ", " rs ++ ")")

/-- Run a sequence of `append` operations from a starting state; an append
that panics leaves the container as it was (its partial state is discarded).
Every state reachable from `start` by successful appends is
`applyAppends start ops` for some `ops`. -/
def applyAppends (start : Lldpdu) : List Tlv → Lldpdu
  | [] => start
  | t :: ts =>
    match start.append t with
    | some l2 => applyAppends l2 ts
    | none => applyAppends start ts

/-! ## The container ordering invariant -/

/-- The ordering discipline of §3 of the spec: position 0 is a ChassisId,
position 1 a PortId, position 2 a TTL, none of the three mandatory kinds
appears at position 3 or later, and an EndOfLLDPDU can only be the last
element. -/
def orderedPositions (l : Lldpdu) : Prop :=
  (∀ t, l.tlvs[0]? = some t → t.get_type = TlvType.ChassisId) ∧
  (∀ t, l.tlvs[1]? = some t → t.get_type = TlvType.PortId) ∧
  (∀ t, l.tlvs[2]? = some t → t.get_type = TlvType.Ttl) ∧
  (∀ i t, 3 ≤ i → l.tlvs[i]? = some t →
      t.get_type ≠ TlvType.ChassisId ∧ t.get_type ≠ TlvType.PortId ∧
      t.get_type ≠ TlvType.Ttl) ∧
  (∀ i t, l.tlvs[i]? = some t → t.get_type = TlvType.EndOfLLDPDU →
      i + 1 = l.tlvs.length)

/-- The inductive invariant of the container: the ordering discipline plus the
bookkeeping facts about `has_end` that make the induction go through. -/
def containerInv (l : Lldpdu) : Prop :=
  orderedPositions l ∧
  (l.has_end = false → ∀ t ∈ l.tlvs, t.get_type ≠ TlvType.EndOfLLDPDU) ∧
  (l.has_end = true → 3 ≤ l.tlvs.length)

/-- The non-size checks of `append`, as a predicate on the state and the
incoming TLV: the terminator must not be present, the first three positions
only accept their mandatory kind, the mandatory kinds may not reappear later,
and an EndOfLLDPDU needs the three mandatory TLVs in place. -/
def structuralOk (l : Lldpdu) (tlv : Tlv) : Prop :=
  l.has_end = false ∧
  (l.tlvs.length = 0 → tlv.get_type = TlvType.ChassisId) ∧
  (l.tlvs.length = 1 → tlv.get_type = TlvType.PortId) ∧
  (l.tlvs.length = 2 → tlv.get_type = TlvType.Ttl) ∧
  (3 ≤ l.tlvs.length → tlv.get_type ≠ TlvType.ChassisId ∧
      tlv.get_type ≠ TlvType.PortId ∧ tlv.get_type ≠ TlvType.Ttl) ∧
  (tlv.get_type = TlvType.EndOfLLDPDU → 3 ≤ l.tlvs.length)

instance (l : Lldpdu) (tlv : Tlv) : Decidable (structuralOk l tlv) := by
  unfold structuralOk; infer_instance

/-! ## Concrete values used by the scenario claims -/

/-- ChassisIdTLV(Local, "unittest") of Scenario A. -/
def tlvChassisUnittest : Tlv := .ChassisId (ChassisIdTLV.new .Local (.Other "unittest"))

/-- PortIdTLV(Local, "port(12)") of Scenario A. -/
def tlvPortId12 : Tlv := .PortId (PortIdTLV.new .Local (.Other "port(12)"))

/-- TtlTLV(400) of Scenario A. -/
def tlvTtl400 : Tlv := .Ttl (TtlTLV.new 400)

/-- The EndOfLLDPDU terminator TLV. -/
def tlvEnd : Tlv := .EndOfLldpdu EndOfLLDPDUTLV.new

/-- The LLDPDU of Scenario A. -/
def scenarioA : Option Lldpdu :=
  Lldpdu.new [tlvChassisUnittest, tlvPortId12, tlvTtl400, tlvEnd]

/-- ChassisIdTLV(Local, "chair") of Scenario C. -/
def tlvChassisChair : Tlv := .ChassisId (ChassisIdTLV.new .Local (.Other "chair"))

/-- PortIdTLV(Local, "Mathekeller") of Scenario C. -/
def tlvPortMathekeller : Tlv := .PortId (PortIdTLV.new .Local (.Other "Mathekeller"))

/-- TtlTLV(1234) of Scenario C. -/
def tlvTtl1234 : Tlv := .Ttl (TtlTLV.new 1234)

/-- The LLDPDU of Scenario C. -/
def scenarioC : Option Lldpdu :=
  Lldpdu.new [tlvChassisChair, tlvPortMathekeller, tlvTtl1234]

/-- An organizationally specific TLV whose encoding is 1501 bytes, one over
the 1500-byte LLDPDU budget. -/
def tlvOrgBig : Tlv :=
  .OrganizationallySpecific
    (OrganizationallySpecificTLV.new [0, 0, 0] 0 (List.replicate 1495 0))

/-- Indexing into a one-element extension of a list. -/
theorem getElem?_snoc {α : Type} (xs : List α) (a : α) (i : Nat) :
    (xs ++ [a])[i]? =
      if i < xs.length then xs[i]? else if i = xs.length then some a else none := by
  rcases Nat.lt_trichotomy i xs.length with hlt | heq | hgt
  · rw [if_pos hlt, List.getElem?_append_left hlt]
  · rw [if_neg (by omega), if_pos heq, heq,
      List.getElem?_append_right (le_refl _)]
    simp
  · rw [if_neg (by omega), if_neg (by omega),
      List.getElem?_append_right (by omega)]
    have h1 : (1 : Nat) ≤ i - xs.length := by omega
    apply List.getElem?_eq_none
    simpa using h1

/-- What a successful `append` tells us: every check of the source passed, and
the new state is the old one extended by the TLV. -/
theorem append_eq_some {l l2 : Lldpdu} {tlv : Tlv} (h : l.append tlv = some l2) :
    l.size + tlv.bytes.length ≤ 1500 ∧
    l.has_end = false ∧
    (l.tlvs.length = 0 → tlv.get_type = TlvType.ChassisId) ∧
    (l.tlvs.length = 1 → tlv.get_type = TlvType.PortId) ∧
    (l.tlvs.length = 2 → tlv.get_type = TlvType.Ttl) ∧
    (3 ≤ l.tlvs.length → tlv.get_type ≠ TlvType.ChassisId ∧
        tlv.get_type ≠ TlvType.PortId ∧ tlv.get_type ≠ TlvType.Ttl) ∧
    (tlv.get_type = TlvType.EndOfLLDPDU → 3 ≤ l.tlvs.length) ∧
    l2 = { has_end := l.has_end || decide (tlv.get_type = TlvType.EndOfLLDPDU),
           tlvs := l.tlvs ++ [tlv],
           size := l.size + tlv.bytes.length } := by
  simp only [Lldpdu.append] at h
  split_ifs at h with h1 h2 h3 h4 h5 h6 h7
  refine ⟨by omega, by simpa using h2, ?_, ?_, ?_, ?_, ?_, ?_⟩
  · intro hl; by_contra hne; exact h3 ⟨hl, hne⟩
  · intro hl; by_contra hne; exact h4 ⟨hl, hne⟩
  · intro hl; by_contra hne; exact h5 ⟨hl, hne⟩
  · intro hl
    refine ⟨?_, ?_, ?_⟩ <;> (intro he; exact h6 ⟨hl, by tauto⟩)
  · intro he; by_contra hlt; exact h7 ⟨he, by omega⟩
  · cases h; rfl

/-- A successful `append` preserves the container invariant. -/
theorem containerInv_append {l l2 : Lldpdu} {tlv : Tlv}
    (hinv : containerInv l) (h : l.append tlv = some l2) : containerInv l2 := by
  obtain ⟨-, hend, h0, h1, h2, hdup, hend3, rfl⟩ := append_eq_some h
  obtain ⟨⟨p0, p1, p2, pdup, plast⟩, hnoEnd, -⟩ := hinv
  have noE : ∀ t ∈ l.tlvs, t.get_type ≠ TlvType.EndOfLLDPDU := hnoEnd hend
  refine ⟨⟨?_, ?_, ?_, ?_, ?_⟩, ?_, ?_⟩
  · intro t ht
    rw [getElem?_snoc] at ht
    split_ifs at ht with hc hc2
    · exact p0 t ht
    · cases ht; exact h0 hc2.symm
  · intro t ht
    rw [getElem?_snoc] at ht
    split_ifs at ht with hc hc2
    · exact p1 t ht
    · cases ht; exact h1 hc2.symm
  · intro t ht
    rw [getElem?_snoc] at ht
    split_ifs at ht with hc hc2
    · exact p2 t ht
    · cases ht; exact h2 hc2.symm
  · intro i t hi ht
    rw [getElem?_snoc] at ht
    split_ifs at ht with hc hc2
    · exact pdup i t hi ht
    · cases ht; exact hdup (by omega)
  · intro i t ht hEnd
    rw [getElem?_snoc] at ht
    split_ifs at ht with hc hc2
    · exact absurd hEnd (noE t (List.getElem?_mem ht))
    · simp [hc2, List.length_append]
  · intro hfalse t ht
    have hd : decide (tlv.get_type = TlvType.EndOfLLDPDU) = false := by
      cases hde : decide (tlv.get_type = TlvType.EndOfLLDPDU) with
      | false => rfl
      | true => rw [hend, hde] at hfalse; cases hfalse
    rcases List.mem_append.mp ht with hmem | hmem
    · exact noE t hmem
    · have : t = tlv := by simpa using hmem
      subst this
      simpa using hd
  · intro htrue
    rw [hend, Bool.false_or] at htrue
    have : tlv.get_type = TlvType.EndOfLLDPDU := by simpa using htrue
    have := hend3 this
    simp [List.length_append]
    omega

/-- The empty container satisfies the invariant. -/
theorem containerInv_empty : containerInv Lldpdu.empty := by
  refine ⟨⟨?_, ?_, ?_, ?_, ?_⟩, ?_, ?_⟩ <;> simp [Lldpdu.empty]

/-- Every state reached by a sequence of appends from an invariant-satisfying
state satisfies the invariant. -/
theorem containerInv_applyAppends (ops : List Tlv) :
    ∀ l : Lldpdu, containerInv l → containerInv (applyAppends l ops) := by
  induction ops with
  | nil => intro l h; exact h
  | cons t ts ih =>
    intro l h
    unfold applyAppends
    cases hap : l.append t with
    | none => exact ih l h
    | some l2 => exact ih l2 (containerInv_append h hap)

/-- Splitting `append` along the size check: the size check alone forces a
panic, and once the size fits, the structural checks are the only remaining
sources of failure. -/
theorem append_size_split (l : Lldpdu) (tlv : Tlv) :
    (1500 < l.size + tlv.bytes.length → l.append tlv = none) ∧
    (l.size + tlv.bytes.length ≤ 1500 → structuralOk l tlv →
        (l.append tlv).isSome = true) := by
  constructor
  · intro hgt
    simp only [Lldpdu.append]
    rw [if_pos (by omega)]
  · rintro hle ⟨he, s0, s1, s2, sdup, send⟩
    simp only [Lldpdu.append]
    split_ifs with h1 h2 h3 h4 h5 h6 h7
    · omega
    · rw [he] at h2; cases h2
    · exact absurd (s0 h3.1) h3.2
    · exact absurd (s1 h4.1) h4.2
    · exact absurd (s2 h5.1) h5.2
    · obtain ⟨hlen, hor⟩ := h6
      obtain ⟨n1, n2, n3⟩ := sdup hlen
      rcases hor with h | h | h
      · exact absurd h n1
      · exact absurd h n2
      · exact absurd h n3
    · obtain ⟨hET, hlt⟩ := h7
      exact absurd (send hET) (by omega)
    · rfl

/-- A successful `append` implies the structural checks passed: the converse
direction of the split, read off from `append_eq_some`. -/
theorem structuralOk_of_append_isSome {l : Lldpdu} {tlv : Tlv}
    (h : (l.append tlv).isSome = true) : structuralOk l tlv := by
  obtain ⟨l2, hl2⟩ := Option.isSome_iff_exists.mp h
  obtain ⟨-, hend, h0, h1, h2, hdup, hend3, -⟩ := append_eq_some hl2
  exact ⟨hend, h0, h1, h2, hdup, hend3⟩

set_option maxRecDepth 40000

/-! ## The claims -/

/-- C1.  The spec claims `decode(encode(tlv)) == tlv` for every TLV kind.
This fails for `TtlTLV`: the encoder emits the 16-bit TTL low byte first
while the decoder reads the value big-endian, so the round trip of
`TtlTLV::new(400)` yields a TLV with value 36865, not 400. -/
theorem ttl_roundtrip_bug :
    TtlTLV.new_from_bytes (TtlTLV.new 400).bytes = some (TtlTLV.new 36865) ∧
    TtlTLV.new_from_bytes (TtlTLV.new 400).bytes ≠ some (TtlTLV.new 400) := by
  decide

/-- C2.  Scenario A: the LLDPDU built from ChassisId(Local, "unittest"),
PortId(Local, "port(12)"), Ttl(400), EndOfLLDPDU encodes the TTL value 400
low byte first (`90 01`), not most-significant byte first (`01 90`) as the
spec (and the repository's own `test_dump`) requires. -/
theorem scenarioA_encode_bug :
    scenarioA.map Lldpdu.bytes =
      some [0x02, 0x09, 0x07, 117, 110, 105, 116, 116, 101, 115, 116,
            0x04, 0x09, 0x07, 112, 111, 114, 116, 40, 49, 50, 41,
            0x06, 0x02, 0x90, 0x01, 0x00, 0x00] ∧
    scenarioA.map Lldpdu.bytes ≠
      some [0x02, 0x09, 0x07, 117, 110, 105, 116, 116, 101, 115, 116,
            0x04, 0x09, 0x07, 112, 111, 114, 116, 40, 49, 50, 41,
            0x06, 0x02, 0x01, 0x90, 0x00, 0x00] := by
  decide

/-- C3.  The header law `len(encode(tlv)) = 2 + value_len(tlv)` fails for
`ManagementAddressTLV`: its encoder emits the address length byte in place of
the address octets (and fixed bytes for the family and the OID length), so an
IPv4 TLV with an empty OID encodes to 11 bytes while `2 + len()` is 14. -/
theorem managementaddress_header_law_bug :
    ((ManagementAddressTLV.new (.V4 [192, 0, 2, 42]) 1 .SystemPort []).bytes).length = 11 ∧
    2 + (ManagementAddressTLV.new (.V4 [192, 0, 2, 42]) 1 .SystemPort []).len = 14 ∧
    ((ManagementAddressTLV.new (.V4 [192, 0, 2, 42]) 1 .SystemPort []).bytes).length ≠
      2 + (ManagementAddressTLV.new (.V4 [192, 0, 2, 42]) 1 .SystemPort []).len := by
  decide

/-- C4.  `SystemCapabilitiesTLV::new` computes `(supported << 16) | enabled`
in `u16` arithmetic, so in the build used by the test suite the shift by 16
overflows and the constructor panics for every input: construction with
`enabled ⊆ supported` (4, 4) does not succeed, and no subset validation or
upper-16-bit packing takes place (construction with a mismatch (128, 8)
panics for the same shift-overflow reason, not because of a check). -/
theorem systemcapabilities_new_bug :
    SystemCapabilitiesTLV.new 4 4 = none ∧
    SystemCapabilitiesTLV.new 128 8 = none := by
  decide

/-- C5.  The ChassisId decoder weights the 9th length bit with
`1 << 9 = 512` instead of the spec's `(byte0 & 1) << 8 = 256`: the record
`03 00` followed by exactly 256 value bytes (subtype 7 and 255 ASCII bytes),
well-formed per the spec's formula, is rejected, while the same header is
accepted only with 512 value bytes. -/
theorem chassisid_length_bit_bug :
    ChassisIdTLV.new_from_bytes (0x03 :: 0x00 :: 0x07 :: List.replicate 255 0x61) = none ∧
    (ChassisIdTLV.new_from_bytes
        (0x03 :: 0x00 :: 0x07 :: List.replicate 511 0x61)).isSome = true := by
  decide

/-- C6.  Every state reachable from the empty LLDPDU by a sequence of appends
(failed appends leave no state behind) satisfies the ordering discipline:
position 0 holds a ChassisId, position 1 a PortId, position 2 a TTL, no
mandatory kind appears from position 3 on, and an EndOfLLDPDU can only be the
last element. -/
theorem append_ordering_invariant (ops : List Tlv) :
    orderedPositions (applyAppends Lldpdu.empty ops) :=
  (containerInv_applyAppends ops Lldpdu.empty containerInv_empty).1

/-- C7 (amended).  The size check alone makes `append` fail whenever the
cumulative size would pass 1500 bytes; and when the size fits, the append
succeeds exactly when the TLV also passes the structural checks (the claim
as stated, "succeeds otherwise", is refuted by a structurally invalid append
that fits in the budget). -/
theorem append_size_boundary (l : Lldpdu) (tlv : Tlv) :
    (1500 < l.size + tlv.bytes.length → l.append tlv = none) ∧
    (l.size + tlv.bytes.length ≤ 1500 →
        ((l.append tlv).isSome = true ↔ structuralOk l tlv)) :=
  ⟨(append_size_split l tlv).1,
   fun hle => ⟨structuralOk_of_append_isSome, (append_size_split l tlv).2 hle⟩⟩

/-- C7, counterexample to the claim as stated: after appending
ChassisId(Local, "unittest") to the empty LLDPDU, appending the same TLV
again stays well within 1500 bytes yet fails (position 1 must be a PortId). -/
theorem append_size_boundary_counterexample :
    (Lldpdu.empty.append tlvChassisUnittest).map (fun l =>
        (decide (l.size + tlvChassisUnittest.bytes.length ≤ 1500),
         l.append tlvChassisUnittest)) = some (true, none) := by
  decide

/-- C7, witness: both directions of `append_size_boundary` applied at
concrete inputs — a 1501-byte TLV is rejected by the empty LLDPDU, and a
ChassisId append that fits and is structurally fine succeeds. -/
theorem append_size_boundary_witness :
    Lldpdu.empty.append tlvOrgBig = none ∧
    (Lldpdu.empty.append tlvChassisUnittest).isSome = true :=
  ⟨(append_size_boundary Lldpdu.empty tlvOrgBig).1 (by decide),
   ((append_size_boundary Lldpdu.empty tlvChassisUnittest).2 (by decide)).mpr (by decide)⟩

/-- C8.  Scenario C: rendering the LLDPDU of ChassisId(Local, "chair"),
PortId(Local, "Mathekeller"), Ttl(1234) panics, because the `Display` impl of
`PortIdTLV` is `todo!()`; the ChassisId and TTL renders do produce the
claimed fragments, but the PortId render is undefined, so the container
render is not the claimed string. -/
theorem scenarioC_render_bug :
    scenarioC.map Lldpdu.render = some none ∧
    (ChassisIdTLV.new .Local (.Other "chair")).render = "ChassisIdTLV(7, \"chair\")" ∧
    (TtlTLV.new 1234).render = "TtlTLV(1234)" ∧
    (PortIdTLV.new .Local (.Other "Mathekeller")).render = none := by
  decide

/-- C9.  `TtlTLV::new_from_bytes` computes the 7-bit type code from the
buffer but never compares it with 3: buffers with type codes 1 and 4 are both
decoded successfully to TtlTLV(120) instead of failing. -/
theorem ttl_decode_type_check_bug :
    TtlTLV.new_from_bytes [0x02, 0x02, 0x00, 0x78] = some (TtlTLV.new 120) ∧
    TtlTLV.new_from_bytes [0x08, 0x02, 0x00, 0x78] = some (TtlTLV.new 120) := by
  decide

/-- C10.  Appending an EndOfLLDPDU to any LLDPDU holding fewer than three
TLVs fails, and consequently every append-reachable state whose terminator
flag is set holds at least the three mandatory TLVs, with ChassisId, PortId
and TTL at positions 0, 1 and 2. -/
theorem terminator_requires_mandatory :
    (∀ l : Lldpdu, l.tlvs.length < 3 → l.append tlvEnd = none) ∧
    (∀ ops : List Tlv, (applyAppends Lldpdu.empty ops).has_end = true →
        3 ≤ (applyAppends Lldpdu.empty ops).tlvs.length ∧
        ((applyAppends Lldpdu.empty ops).tlvs[0]?).map Tlv.get_type
          = some TlvType.ChassisId ∧
        ((applyAppends Lldpdu.empty ops).tlvs[1]?).map Tlv.get_type
          = some TlvType.PortId ∧
        ((applyAppends Lldpdu.empty ops).tlvs[2]?).map Tlv.get_type
          = some TlvType.Ttl) := by
  constructor
  · intro l hlen
    have hT : Tlv.get_type tlvEnd = TlvType.EndOfLLDPDU := rfl
    simp only [Lldpdu.append]
    split_ifs with h1 h2 h3 h4 h5 h6 h7
    all_goals try rfl
    exfalso
    rw [hT] at h3 h4 h5 h7
    simp at h3 h4 h5 h7
    omega
  · intro ops htrue
    obtain ⟨⟨p0, p1, p2, -, -⟩, -, hlen3⟩ :=
      containerInv_applyAppends ops Lldpdu.empty containerInv_empty
    have h3 := hlen3 htrue
    refine ⟨h3, ?_, ?_, ?_⟩
    · have hg := List.getElem?_eq_getElem
        (show 0 < (applyAppends Lldpdu.empty ops).tlvs.length by omega)
      rw [hg, Option.map_some']
      exact congrArg some (p0 _ hg)
    · have hg := List.getElem?_eq_getElem
        (show 1 < (applyAppends Lldpdu.empty ops).tlvs.length by omega)
      rw [hg, Option.map_some']
      exact congrArg some (p1 _ hg)
    · have hg := List.getElem?_eq_getElem
        (show 2 < (applyAppends Lldpdu.empty ops).tlvs.length by omega)
      rw [hg, Option.map_some']
      exact congrArg some (p2 _ hg)

/-- C10, witness: the empty LLDPDU (0 < 3 TLVs) rejects the terminator, and
the four-element Scenario A append sequence reaches a terminated state with
at least three TLVs. -/
theorem terminator_requires_mandatory_witness :
    Lldpdu.empty.append tlvEnd = none ∧
    3 ≤ (applyAppends Lldpdu.empty
          [tlvChassisUnittest, tlvPortId12, tlvTtl400, tlvEnd]).tlvs.length :=
  ⟨terminator_requires_mandatory.1 Lldpdu.empty (by decide),
   (terminator_requires_mandatory.2
      [tlvChassisUnittest, tlvPortId12, tlvTtl400, tlvEnd] (by decide)).1⟩

end LLDPA
